import Mathlib

/-!
Verification of the application-bot RAG pipeline surface (`01_Home.py`).

The visible source is the Streamlit UI shell `src/01_Home.py`; the two
collaborator modules it drives (`modules/InfoLoader.py`, `modules/VectorDB.py`)
are not part of the repository snapshot, so their operations are modelled
from the specification and are marked `Modelled from the spec:` below.
Everything else is translated from `src/01_Home.py`.
-/

namespace ApplicationBot

/-- A file as it arrives at the upload surface: its display name, its
extension, whether text extraction from its bytes succeeds, and the
extracted text when it does. -/
structure UploadedFile where
  name : String
  ext : String
  extract_ok : Bool
  text : String
deriving DecidableEq, Repr

/-- Extensions accepted by the upload widget, from `01_Home.py` line 81:
`type = ['pdf', 'txt', 'docx', 'srt']`. -/
def uploader_types : List String := ["pdf", "txt", "docx", "srt"]

/-- The upload widget of `01_Home.py` lines 78-83: `st.file_uploader` with a
`type` restriction only yields files whose extension is in `uploader_types`;
a file with any other extension never appears in `uploaded_files`. -/
def file_uploader (selected : List UploadedFile) : List UploadedFile :=
  selected.filter (fun f => uploader_types.contains f.ext)

/-- Result of chunking one upload batch: the extracted segments tagged with
their document name, the names of the successfully processed documents, and
the names of the files whose extraction failed. -/
structure ChunkResult where
  document_chunks_full : List (String × String)
  document_names : List String
  failed_files : List String
deriving DecidableEq, Repr

/-- Modelled from the spec: `InfoLoader.get_chunks` (modules/InfoLoader.py is
not under src/). Per-file partial-failure semantics (§4.1): extraction
failures are collected per file and surfaced as a side list naming the
offending files, while the other files of the batch are still chunked; the
call itself does not raise. Successful files contribute their segments and
their name, in input order. -/
def get_chunks (files : List UploadedFile) : ChunkResult :=
  { document_chunks_full :=
      (files.filter (fun f => f.extract_ok)).map (fun f => (f.name, f.text)),
    document_names := (files.filter (fun f => f.extract_ok)).map (fun f => f.name),
    failed_files := (files.filter (fun f => !f.extract_ok)).map (fun f => f.name) }

/-- The vector database's observable state: the indexed document names and
the indexed segments. -/
structure VectorDB where
  document_names : List String
  chunks : List (String × String)
deriving DecidableEq, Repr

/-- A vector database before any ingestion: no documents indexed. -/
def VectorDB.empty : VectorDB := { document_names := [], chunks := [] }

/-- Modelled from the spec: `VectorDB.initialize_database`
(modules/VectorDB.py is not under src/). Clears any prior Index and rebuilds
it in full from the given segments — a replace, not a merge (§4.2). -/
def initialize_database (_db : VectorDB) (document_chunks_full : List (String × String))
    (document_names : List String) : VectorDB :=
  { document_names := document_names, chunks := document_chunks_full }

/-- Error taxonomy of the pipeline (spec §7). -/
inductive PipelineError
  | UnsupportedFormat
  | ExtractionError
  | AuthenticationError
  | RateLimitError
  | GenerationError
  | IndexMismatchError
  | InvalidParameter
  | NotReady
deriving DecidableEq, Repr

/-- Secrets of the host session: the host API key and the shared upload
password (`st.secrets` in `01_Home.py`). -/
structure Secrets where
  apikey : String
  password : String
deriving DecidableEq, Repr

/-- Session state: the usage counter plus the vector database resource the
page works with. -/
structure SessionState where
  usage_counter : Nat
  db : VectorDB
deriving DecidableEq, Repr

/-- Session-state initialisation, from `01_Home.py` lines 46-48: the usage
counter starts at 0; the database resource starts empty. -/
def init_session_state : SessionState :=
  { usage_counter := 0, db := VectorDB.empty }

/-- One interaction with the sidebar upload form (`01_Home.py` lines 85-103):
whether the upload button was pressed, the files the upload widget yielded,
the entered password, and whether the embedding calls of the try block
(`create_embedding_function`, `initialize_database`) succeed — they reach a
remote provider and may raise. -/
structure UploadInput where
  button : Bool
  uploaded_files : List UploadedFile
  password : String
  embed_ok : Bool
deriving DecidableEq, Repr

/-- The sidebar upload handler, from `01_Home.py` lines 75 and 85-103.
Line 75 binds `openai_api_key` to the host key; line 85 guards on the
button, a non-empty `uploaded_files` and the password matching the secret;
inside the try block the batch is chunked and the database re-initialised,
and on success line 99-100 increments the usage counter by the number of
ingested document names when the key in use is the host key (it always is,
by line 75). On an exception the handler only logs and flags the status, so
the session state is unchanged. -/
def upload_step (s : SessionState) (secrets : Secrets) (inp : UploadInput) : SessionState :=
  let openai_api_key := secrets.apikey
  if inp.button = true ∧ inp.uploaded_files ≠ [] ∧ inp.password = secrets.password then
    if inp.embed_ok = true then
      let cr := get_chunks inp.uploaded_files
      let db' := initialize_database s.db cr.document_chunks_full cr.document_names
      { usage_counter :=
          if openai_api_key = secrets.apikey then
            s.usage_counter + cr.document_names.length
          else s.usage_counter,
        db := db' }
    else s
  else s

/-- The temperature slider's options, from `01_Home.py` line 106:
`options=[x / 10 for x in range(0, 21)]`. -/
def temperature_options : List ℚ := (List.range 21).map (fun x : ℕ => (x : ℚ) / 10)

/-- A configured language model handle: the temperature it was created
with. -/
structure LLM where
  temperature : ℚ
deriving DecidableEq, Repr

/-- Modelled from the spec: `VectorDB.create_llm` (modules/VectorDB.py is not
under src/). The Generation Client contract (§4.4) requires temperature in
the closed interval from 0.0 to 2.0; out-of-range values fail with
`InvalidParameter`. -/
def create_llm (_api_key : String) (temperature : ℚ) : Except PipelineError LLM :=
  if temperature < 0 ∨ 2 < temperature then .error .InvalidParameter
  else .ok { temperature := temperature }

/-- A retrieval/generation chain as created, recording the prompt mode and
source scope it was created with. -/
structure Chain where
  prompt_mode : String
  source : String
deriving DecidableEq, Repr

/-- Modelled from the spec: `VectorDB.create_chain` (modules/VectorDB.py is
not under src/). Builds the retrieval chain for the given prompt mode and
source scope (§4.3). -/
def create_chain (prompt_mode source : String) : Chain :=
  { prompt_mode := prompt_mode, source := source }

deriving instance DecidableEq for Except

/-- Result shape returned to callers (spec §6): the answer text and the
cited source segments. -/
structure Response where
  result : String
  source_documents : List (String × String)
deriving DecidableEq, Repr

/-- Modelled from the spec: `VectorDB.get_response` (modules/VectorDB.py is
not under src/), the answer path of the Pipeline Controller (§4.5): it
requires a non-empty Index and otherwise fails with `NotReady` before any
retrieval or generation runs; then it runs retrieval and one outbound
generation call, which may fail with a provider error (`gen_fail`), and on
success returns the generated text with the cited segments. The remote
model's text for a question is the environment function `gen`. -/
def get_response (db : VectorDB) (_chain : Chain) (_llm : LLM)
    (gen : String → String) (gen_fail : Bool) (question : String) :
    Except PipelineError Response :=
  if db.document_names = [] then .error .NotReady
  else if gen_fail = true then .error .GenerationError
  else .ok { result := gen question, source_documents := db.chunks }

/-- Python's `str.startswith`, used by the key check of `01_Home.py` line
152: the candidate string begins with the given characters. -/
def startswith (s pre : String) : Bool := pre.data.isPrefixOf s.data

/-- Prompt mode constant, from `01_Home.py` line 141 (the selectbox is
commented out): `prompt_mode = 'Unrestricted'`. -/
def prompt_mode : String := "Unrestricted"

/-- Source scope constant, from `01_Home.py` line 132:
`source = 'Uploaded documents'`. -/
def source : String := "Uploaded documents"

/-- One submission of the query form (`01_Home.py` lines 128-164): whether
the submit button was pressed, the three text areas, the slider temperature,
and whether the remote generation call fails. -/
structure QueryInput where
  submit : Bool
  user_instructions : String
  user_information : String
  user_input : String
  temperature : ℚ
  gen_fail : Bool
deriving DecidableEq, Repr

/-- Observable outcome of one pass through the query form: whether the error
banner was shown, the answer text displayed (if any), the chain that was
created (if the flow got that far), the question string passed to
`get_response` (if it was called), and the result of the guarded try block
(absent when the form was not submitted or the key check failed). -/
structure QueryOutcome where
  error_shown : Bool
  displayed_answer : Option String
  chain_created : Option Chain
  question_sent : Option String
  pipeline_result : Option (Except PipelineError Response)
deriving DecidableEq, Repr

/-- The query form handler, from `01_Home.py` lines 75 and 128-172. The
submit guard (line 152) requires the API key to start with "sk-"; the try
block sets `result = None`, creates the model with the slider temperature
(lines 156-159), creates the chain with the constant prompt mode and source
(lines 160-163), and calls `get_response` on the three text areas joined by
single spaces (line 164); any exception shows the error banner (line 167)
and leaves `result` at `None`; the answer is displayed only when `result` is
set (lines 169-172). -/
def query_step (db : VectorDB) (secrets : Secrets) (inp : QueryInput)
    (gen : String → String) : QueryOutcome :=
  let openai_api_key := secrets.apikey
  if inp.submit = true ∧ startswith openai_api_key "sk-" = true then
    match create_llm openai_api_key inp.temperature with
    | .error e =>
        { error_shown := true, displayed_answer := none, chain_created := none,
          question_sent := none, pipeline_result := some (.error e) }
    | .ok llm =>
        let chain := create_chain prompt_mode source
        let question :=
          inp.user_instructions ++ " " ++ inp.user_information ++ " " ++ inp.user_input
        match get_response db chain llm gen inp.gen_fail question with
        | .error e =>
            { error_shown := true, displayed_answer := none,
              chain_created := some chain, question_sent := some question,
              pipeline_result := some (.error e) }
        | .ok r =>
            { error_shown := false, displayed_answer := some r.result,
              chain_created := some chain, question_sent := some question,
              pipeline_result := some (.ok r) }
  else
    { error_shown := false, displayed_answer := none, chain_created := none,
      question_sent := none, pipeline_result := none }

/-- One user interaction with the page: an upload-form interaction or a
query-form submission. -/
inductive Op
  | upload (inp : UploadInput)
  | query (inp : QueryInput) (gen : String → String)

/-- Effect of one interaction on the session state: the upload handler may
replace the database and bump the counter; the query handler (`01_Home.py`
lines 152-172) reads the database and never writes the session state. -/
def session_step (secrets : Secrets) (s : SessionState) : Op → SessionState
  | .upload inp => upload_step s secrets inp
  | .query _ _ => s

/-- Run a sequence of page interactions from a starting session state. -/
def run_trace (secrets : Secrets) (s : SessionState) : List Op → SessionState
  | [] => s
  | op :: ops => run_trace secrets (session_step secrets s op) ops

/-- Every slider option lies between 0 and 2: the options are x / 10 for
x in 0..20. -/
theorem temperature_options_bounds : ∀ t ∈ temperature_options, (0 : ℚ) ≤ t ∧ t ≤ 2 := by
  intro t ht
  rw [temperature_options, List.mem_map] at ht
  obtain ⟨x, hxl, rfl⟩ := ht
  rw [List.mem_range] at hxl
  have hx20 : (x : ℚ) ≤ 20 := by exact_mod_cast Nat.lt_succ_iff.mp hxl
  have h0 : (0 : ℚ) ≤ (x : ℚ) := by positivity
  constructor
  · exact div_nonneg h0 (by norm_num)
  · rw [div_le_iff₀ (by norm_num)]
    linarith

/-- The value 1.0 (the slider's default) is one of the slider options. -/
theorem one_mem_temperature_options : (1 : ℚ) ∈ temperature_options := by
  have h : ((10 : ℕ) : ℚ) / 10 ∈ temperature_options :=
    List.mem_map_of_mem _ (List.mem_range.mpr (by norm_num))
  norm_num at h
  exact h

/-- A slider temperature never trips the `InvalidParameter` guard of
`create_llm`. -/
theorem create_llm_of_slider (k : String) (t : ℚ) (ht : t ∈ temperature_options) :
    create_llm k t = .ok { temperature := t } := by
  obtain ⟨h0, h2⟩ := temperature_options_bounds t ht
  unfold create_llm
  rw [if_neg]
  push_neg
  exact ⟨by linarith, by linarith⟩

/-- Helper: on a successful guarded upload the database's document names are
exactly those produced by chunking the batch. -/
theorem upload_success_document_names (s : SessionState) (secrets : Secrets)
    (inp : UploadInput) (hb : inp.button = true) (hf : inp.uploaded_files ≠ [])
    (hp : inp.password = secrets.password) (he : inp.embed_ok = true) :
    (upload_step s secrets inp).db.document_names
      = (get_chunks inp.uploaded_files).document_names := by
  unfold upload_step
  rw [if_pos ⟨hb, hf, hp⟩, if_pos he]
  rfl

/-- C1: re-running ingest with a different document set fully replaces the
index — after every successful upload, the index's `document_names` equals
exactly the document names produced by chunking that upload batch, for any
prior session state (so never a union with a previous run). -/
theorem C1_ingest_replaces_index (s : SessionState) (secrets : Secrets)
    (inp : UploadInput) (hb : inp.button = true) (hf : inp.uploaded_files ≠ [])
    (hp : inp.password = secrets.password) (he : inp.embed_ok = true) :
    (upload_step s secrets inp).db.document_names
      = (get_chunks inp.uploaded_files).document_names :=
  upload_success_document_names s secrets inp hb hf hp he

/-- C1 witness: a session whose index holds `old.pdf` is re-ingested with
only `new.txt`; the resulting index lists exactly `new.txt`. -/
theorem C1_ingest_replaces_index_witness :
    (upload_step
        { usage_counter := 3,
          db := { document_names := ["old.pdf"], chunks := [("old.pdf", "x")] } }
        { apikey := "sk-host", password := "pw" }
        { button := true,
          uploaded_files := [{ name := "new.txt", ext := "txt", extract_ok := true, text := "hello" }],
          password := "pw", embed_ok := true }).db.document_names
      = ["new.txt"] :=
  (C1_ingest_replaces_index _ _ _ rfl (by decide) rfl rfl).trans (by decide)

/-- C2: a query submitted against an empty index (no documents ingested)
fails with `NotReady`: the error banner is shown, no answer is displayed,
and the outcome does not depend on the generation function — retrieval and
generation never run. -/
theorem C2_empty_index_not_ready (db : VectorDB) (secrets : Secrets)
    (inp : QueryInput) (gen : String → String)
    (hs : inp.submit = true) (hk : startswith secrets.apikey "sk-" = true)
    (ht : inp.temperature ∈ temperature_options)
    (hdb : db.document_names = []) :
    (query_step db secrets inp gen).pipeline_result = some (.error .NotReady) ∧
    (query_step db secrets inp gen).error_shown = true ∧
    (query_step db secrets inp gen).displayed_answer = none ∧
    ∀ gen', query_step db secrets inp gen' = query_step db secrets inp gen := by
  have hq : ∀ g : String → String,
      query_step db secrets inp g =
        { error_shown := true, displayed_answer := none,
          chain_created := some (create_chain prompt_mode source),
          question_sent := some (inp.user_instructions ++ " " ++ inp.user_information
            ++ " " ++ inp.user_input),
          pipeline_result := some (.error .NotReady) } := by
    intro g
    unfold query_step get_response
    rw [if_pos ⟨hs, hk⟩, create_llm_of_slider _ _ ht]
    simp [hdb]
  refine ⟨by rw [hq], by rw [hq], by rw [hq], fun gen' => by rw [hq, hq]⟩

/-- C2 witness: submitting the form with a host key starting in `sk-`, the
default slider temperature 1.0 and an empty database yields the `NotReady`
failure and no displayed answer. -/
theorem C2_empty_index_not_ready_witness :
    (query_step VectorDB.empty { apikey := "sk-abc", password := "pw" }
        { submit := true, user_instructions := "a", user_information := "b",
          user_input := "c", temperature := 1, gen_fail := false }
        (fun _ => "answer")).pipeline_result
      = some (.error .NotReady) :=
  (C2_empty_index_not_ready VectorDB.empty { apikey := "sk-abc", password := "pw" }
    { submit := true, user_instructions := "a", user_information := "b",
      user_input := "c", temperature := 1, gen_fail := false }
    (fun _ => "answer") rfl rfl one_mem_temperature_options rfl).1

/-- C3: the chain is only ever created with the constant prompt mode
`Unrestricted` and the constant source scope `Uploaded documents`
(`01_Home.py` lines 132, 141, 160-163): no execution path selects the
`Restricted` prompt mode or any other source scope. -/
theorem C3_chain_constants (db : VectorDB) (secrets : Secrets) (inp : QueryInput)
    (gen : String → String) (c : Chain)
    (h : (query_step db secrets inp gen).chain_created = some c) :
    c.prompt_mode = "Unrestricted" ∧ c.source = "Uploaded documents" := by
  unfold query_step at h
  dsimp only at h
  split at h
  · split at h
    · simp at h
    · split at h
      · simp only [Option.some.injEq] at h
        rw [← h]
        exact ⟨rfl, rfl⟩
      · simp only [Option.some.injEq] at h
        rw [← h]
        exact ⟨rfl, rfl⟩
  · simp at h

/-- C3 witness: a concrete successful query creates the chain with exactly
the two constants. -/
theorem C3_chain_constants_witness :
    (Chain.prompt_mode { prompt_mode := "Unrestricted", source := "Uploaded documents" }
        = "Unrestricted") ∧
    (Chain.source { prompt_mode := "Unrestricted", source := "Uploaded documents" }
        = "Uploaded documents") :=
  C3_chain_constants
    { document_names := ["resume.pdf"], chunks := [("resume.pdf", "text")] }
    { apikey := "sk-abc", password := "pw" }
    { submit := true, user_instructions := "a", user_information := "b",
      user_input := "c", temperature := 0, gen_fail := false }
    (fun _ => "answer")
    { prompt_mode := "Unrestricted", source := "Uploaded documents" }
    rfl

/-- C4: ingestion has per-file partial-failure semantics — a file whose
extraction fails is named in the chunker's failure list, and every other
file of the same batch whose extraction succeeds is still ingested into the
index by a successful upload of that batch. -/
theorem C4_partial_failure (files : List UploadedFile) (f : UploadedFile)
    (hf : f ∈ files) :
    (f.extract_ok = false → f.name ∈ (get_chunks files).failed_files) ∧
    (f.extract_ok = true →
      ∀ (s : SessionState) (secrets : Secrets) (inp : UploadInput),
        inp.button = true → inp.uploaded_files = files →
        inp.password = secrets.password → inp.embed_ok = true →
        f.name ∈ (upload_step s secrets inp).db.document_names) := by
  constructor
  · intro hbad
    exact List.mem_map_of_mem _ (List.mem_filter.mpr ⟨hf, by simp [hbad]⟩)
  · intro hok s secrets inp hb hfl hp he
    have hne : inp.uploaded_files ≠ [] := by
      rw [hfl]
      exact List.ne_nil_of_mem hf
    rw [upload_success_document_names s secrets inp hb hne hp he, hfl]
    exact List.mem_map_of_mem _ (List.mem_filter.mpr ⟨hf, by simp [hok]⟩)

/-- C4 witness: in the batch `[good.txt, bad.pdf]` where extraction of
`bad.pdf` fails, the chunker names `bad.pdf` as failed and a successful
upload of the batch still ingests `good.txt`. -/
theorem C4_partial_failure_witness :
    "bad.pdf" ∈ (get_chunks
        [{ name := "good.txt", ext := "txt", extract_ok := true, text := "g" },
         { name := "bad.pdf", ext := "pdf", extract_ok := false, text := "" }]).failed_files ∧
    "good.txt" ∈ (upload_step { usage_counter := 0, db := VectorDB.empty }
        { apikey := "sk-abc", password := "pw" }
        { button := true,
          uploaded_files :=
            [{ name := "good.txt", ext := "txt", extract_ok := true, text := "g" },
             { name := "bad.pdf", ext := "pdf", extract_ok := false, text := "" }],
          password := "pw", embed_ok := true }).db.document_names :=
  ⟨(C4_partial_failure
      [{ name := "good.txt", ext := "txt", extract_ok := true, text := "g" },
       { name := "bad.pdf", ext := "pdf", extract_ok := false, text := "" }]
      { name := "bad.pdf", ext := "pdf", extract_ok := false, text := "" }
      (by decide)).1 rfl,
   (C4_partial_failure
      [{ name := "good.txt", ext := "txt", extract_ok := true, text := "g" },
       { name := "bad.pdf", ext := "pdf", extract_ok := false, text := "" }]
      { name := "good.txt", ext := "txt", extract_ok := true, text := "g" }
      (by decide)).2 rfl _ _ _ rfl rfl rfl rfl⟩

/-- C5: every slider temperature lies in the closed interval from 0.0 to
2.0; the boundary values 0.0 and 2.0 are accepted by `create_llm`; the
out-of-range value 2.1 fails with `InvalidParameter`; and a query driven by
a slider temperature never ends in `InvalidParameter`. -/
theorem C5_temperature_range :
    (∀ t ∈ temperature_options, (0 : ℚ) ≤ t ∧ t ≤ 2) ∧
    (∀ k, create_llm k 0 = .ok { temperature := 0 }) ∧
    (∀ k, create_llm k 2 = .ok { temperature := 2 }) ∧
    (∀ k, create_llm k (21 / 10) = .error .InvalidParameter) ∧
    (∀ (db : VectorDB) (secrets : Secrets) (inp : QueryInput) (gen : String → String),
      inp.temperature ∈ temperature_options →
      (query_step db secrets inp gen).pipeline_result
        ≠ some (.error .InvalidParameter)) := by
  refine ⟨temperature_options_bounds, ?_, ?_, ?_, ?_⟩
  · intro k
    unfold create_llm
    rw [if_neg (by norm_num)]
  · intro k
    unfold create_llm
    rw [if_neg (by norm_num)]
  · intro k
    unfold create_llm
    rw [if_pos (Or.inr (by norm_num))]
  · intro db secrets inp gen ht
    unfold query_step
    dsimp only
    split
    · rw [create_llm_of_slider _ _ ht]
      dsimp only
      split
      · rename_i e heq
        unfold get_response at heq
        split at heq
        · cases heq
          simp
        · split at heq
          · cases heq
            simp
          · cases heq
      · simp
    · simp

/-- C6: the usage counter starts at 0, is monotonically non-decreasing
under every page interaction (also along whole interaction traces), grows
by exactly the number of successfully ingested document names on a
successful upload, and is unchanged on a failed ingest or on a query. -/
theorem C6_usage_counter :
    init_session_state.usage_counter = 0 ∧
    (∀ (secrets : Secrets) (s : SessionState) (op : Op),
      s.usage_counter ≤ (session_step secrets s op).usage_counter) ∧
    (∀ (secrets : Secrets) (s : SessionState) (ops : List Op),
      s.usage_counter ≤ (run_trace secrets s ops).usage_counter) ∧
    (∀ (s : SessionState) (secrets : Secrets) (inp : UploadInput),
      inp.button = true → inp.uploaded_files ≠ [] → inp.password = secrets.password →
      inp.embed_ok = true →
      (upload_step s secrets inp).usage_counter
        = s.usage_counter + (get_chunks inp.uploaded_files).document_names.length) ∧
    (∀ (s : SessionState) (secrets : Secrets) (inp : UploadInput),
      inp.embed_ok = false → (upload_step s secrets inp).usage_counter = s.usage_counter) ∧
    (∀ (secrets : Secrets) (s : SessionState) (inp : QueryInput) (gen : String → String),
      (session_step secrets s (Op.query inp gen)).usage_counter = s.usage_counter) := by
  have hstep : ∀ (secrets : Secrets) (s : SessionState) (op : Op),
      s.usage_counter ≤ (session_step secrets s op).usage_counter := by
    intro secrets s op
    cases op with
    | upload inp =>
        unfold session_step upload_step
        repeat' split
        all_goals simp
    | query inp gen => exact le_rfl
  refine ⟨rfl, hstep, ?_, ?_, ?_, fun _ _ _ _ => rfl⟩
  · intro secrets s ops
    induction ops generalizing s with
    | nil => exact le_rfl
    | cons op ops ih =>
        exact le_trans (hstep secrets s op) (ih (session_step secrets s op))
  · intro s secrets inp hb hf hp he
    unfold upload_step
    rw [if_pos ⟨hb, hf, hp⟩, if_pos he]
    simp
  · intro s secrets inp he
    unfold upload_step
    split
    · rw [if_neg (by simp [he])]
    · rfl

/-- C7 counterexample: the claim places the rejection of an unsupported
extension at the Chunker boundary, "not earlier"; but in `01_Home.py` line
81 the upload widget itself restricts the accepted types, so a file such as
`evil.exe` is rejected at the upload surface and never reaches the chunker
(the widget yields the empty batch for it). -/
theorem C7_counterexample :
    uploader_types.contains "exe" = false ∧
    file_uploader
        [{ name := "evil.exe", ext := "exe", extract_ok := true, text := "x" }] = [] :=
  ⟨rfl, rfl⟩

/-- C7 (amended): a file whose extension is outside the set pdf, txt, docx,
srt is rejected at the upload surface — the upload widget's type filter
removes it before it could reach the Chunker — and files with the four
allowed extensions pass the upload surface. -/
theorem C7_upload_surface_filter (selected : List UploadedFile) (f : UploadedFile) :
    f ∈ file_uploader selected ↔
      f ∈ selected ∧ uploader_types.contains f.ext = true := by
  unfold file_uploader
  exact List.mem_filter

/-- C8: no query error is silently downgraded — whenever the guarded try
block ends in an error, the error banner is shown and no answer text is
displayed; and whenever an answer is displayed, the query succeeded and the
text shown is the successful result. -/
theorem C8_no_silent_downgrade (db : VectorDB) (secrets : Secrets)
    (inp : QueryInput) (gen : String → String) :
    (∀ e, (query_step db secrets inp gen).pipeline_result = some (.error e) →
      (query_step db secrets inp gen).error_shown = true ∧
      (query_step db secrets inp gen).displayed_answer = none) ∧
    (∀ a, (query_step db secrets inp gen).displayed_answer = some a →
      (query_step db secrets inp gen).error_shown = false ∧
      ∃ r, (query_step db secrets inp gen).pipeline_result = some (.ok r)
        ∧ a = r.result) := by
  unfold query_step
  dsimp only
  split
  · split
    · exact ⟨fun e _ => ⟨rfl, rfl⟩, fun a ha => by simp at ha⟩
    · split
      · exact ⟨fun e _ => ⟨rfl, rfl⟩, fun a ha => by simp at ha⟩
      · rename_i r heq
        refine ⟨fun e he => by simp at he, fun a ha => ⟨rfl, r, rfl, ?_⟩⟩
        simpa using ha.symm
  · exact ⟨fun e he => by simp at he, fun a ha => by simp at ha⟩

/-- C9: ingestion is gated by the shared secret — when the button is not
pressed, no file is uploaded, or the password does not match the stored
secret, the session state (index and usage counter alike) is unchanged; and
conversely any change of the session state means the button was pressed,
files were present and the password matched. -/
theorem C9_upload_gated (s : SessionState) (secrets : Secrets) (inp : UploadInput) :
    ((inp.button = false ∨ inp.uploaded_files = [] ∨ inp.password ≠ secrets.password) →
      upload_step s secrets inp = s) ∧
    (upload_step s secrets inp ≠ s →
      inp.button = true ∧ inp.uploaded_files ≠ [] ∧ inp.password = secrets.password) := by
  have hfail : ¬(inp.button = true ∧ inp.uploaded_files ≠ [] ∧ inp.password = secrets.password)
      → upload_step s secrets inp = s := by
    intro hng
    unfold upload_step
    rw [if_neg hng]
  constructor
  · intro hcase
    refine hfail ?_
    rintro ⟨hb, hf, hp⟩
    rcases hcase with h | h | h
    · rw [hb] at h
      cases h
    · exact hf h
    · exact h hp
  · intro hchanged
    by_contra hng
    exact hchanged (hfail hng)

/-- C10: the question text passed to the retrieval/generation chain is
exactly the instruction text, the personal-information text and the prompt
text of the three input fields, joined by single spaces in that order
(`01_Home.py` line 164). -/
theorem C10_question_concatenation (db : VectorDB) (secrets : Secrets)
    (inp : QueryInput) (gen : String → String) (q : String)
    (h : (query_step db secrets inp gen).question_sent = some q) :
    q = inp.user_instructions ++ " " ++ inp.user_information ++ " " ++ inp.user_input := by
  unfold query_step at h
  dsimp only at h
  split at h
  · split at h
    · simp at h
    · split at h
      · simp only [Option.some.injEq] at h
        exact h.symm
      · simp only [Option.some.injEq] at h
        exact h.symm
  · simp at h

/-- C10 witness: with the three fields `a`, `b`, `c`, the question passed to
`get_response` is the concrete concatenation `a b c`. -/
theorem C10_question_concatenation_witness :
    "a b c" = "a" ++ " " ++ "b" ++ " " ++ "c" :=
  C10_question_concatenation
    { document_names := ["resume.pdf"], chunks := [("resume.pdf", "text")] }
    { apikey := "sk-abc", password := "pw" }
    { submit := true, user_instructions := "a", user_information := "b",
      user_input := "c", temperature := 0, gen_fail := false }
    (fun _ => "answer") "a b c" rfl

end ApplicationBot
